import Mathlib

/-!
Verification of the ConsultEase faculty desk unit connectivity-and-presence core.

The definitions below are a shallow embedding of the C++ sources:
- NetworkManager (network_manager.cpp / network_manager.h): connection state
  machines, exponential backoff, offline message queue, publish path.
- faculty_desk_unit.ino: the sketch-level offline queue, the
  BooleanPresenceDetector and the AdaptiveBLEScanner.

Machine integers are modelled as Nat / Int; times are a monotone millisecond
counter (the claims under study do not hinge on 32-bit wrap-around, and the
backoff theorems quantify only over inputs for which the C computation does
not overflow).  External drivers (WiFi.status(), PubSubClient
connected/connect/publish, the random jitter draw) are modelled as explicit
per-call inputs.  Statistics fields no claim mentions (uptimes, RSSI
snapshots, last_connection_time) and the error/last_error bookkeeping are
omitted from the state; callbacks are external observers with no effect on
the modelled state.
-/

namespace ConsultEase

/-! ## Exponential backoff (NetworkManager::calculateBackoffDelay) -/

/-- Pre-jitter delay of NetworkManager::calculateBackoffDelay
(network_manager.cpp lines 615-618): base_delay * 2^min(retry_count, 6),
capped at max_delay. -/
def backoffPreDelay (base_delay retry_count max_delay : ℕ) : ℕ :=
  min (base_delay * 2 ^ (min retry_count 6)) max_delay

/-- Magnitude of the jitter window: (delay * 10) / 100 with C integer
division (line 621). -/
def backoffJitterMagnitude (base_delay retry_count max_delay : ℕ) : ℕ :=
  backoffPreDelay base_delay retry_count max_delay * 10 / 100

/-- NetworkManager::calculateBackoffDelay (lines 615-625).  The draw of
random(-jitter, jitter + 1) is passed in as jitterDraw; a valid draw j
satisfies j.natAbs ≤ backoffJitterMagnitude.  The result is floored at
base_delay by the final max. -/
def calculateBackoffDelay (base_delay retry_count max_delay : ℕ) (jitterDraw : ℤ) : ℤ :=
  max ((backoffPreDelay base_delay retry_count max_delay : ℤ) + jitterDraw) (base_delay : ℤ)

/-! ## NetworkManager state and offline message queue -/

/-- NetworkManager::WiFiState. -/
inductive WiFiState where
  | idle | connecting | connected | reconnecting | failed | disabled
  deriving Repr, DecidableEq

/-- NetworkManager::MQTTState. -/
inductive MQTTState where
  | idle | connecting | connected | reconnecting | failed | disabled
  deriving Repr, DecidableEq

/-- NetworkManager::QueuedMessage (network_manager.h lines 190-197).  The
topic buffer is char[128] and the payload buffer char[512]; the stored
strings are the null-terminated strncpy copies, i.e. at most 127 topic
characters and 511 payload characters. -/
structure QueuedMessage where
  topic : List Char
  payload : List Char
  retained : Bool
  qos : ℤ
  timestamp : ℕ
  retry_count : ℕ
  deriving Repr, DecidableEq

/-- NetworkManager::MAX_QUEUE_SIZE (network_manager.h line 198). -/
def MAX_QUEUE_SIZE : ℕ := 10

/-- The counters of NetworkManager::ConnectionStats touched by the modelled
operations. -/
structure ConnectionStats where
  wifi_reconnect_count : ℕ := 0
  mqtt_reconnect_count : ℕ := 0
  wifi_failures : ℕ := 0
  mqtt_failures : ℕ := 0
  messages_sent : ℕ := 0
  messages_failed : ℕ := 0
  messages_queued : ℕ := 0
  deriving Repr, DecidableEq

/-- The mutable state of NetworkManager used by the modelled operations. -/
structure NMState where
  wifi_state : WiFiState := .idle
  mqtt_state : MQTTState := .idle
  wifi_last_attempt : ℕ := 0
  mqtt_last_attempt : ℕ := 0
  last_health_check : ℕ := 0
  wifi_retry_count : ℕ := 0
  mqtt_retry_count : ℕ := 0
  wifi_connect_time : ℕ := 0
  mqtt_connect_time : ℕ := 0
  message_queue : List QueuedMessage := []
  stats : ConnectionStats := {}
  deriving Repr, DecidableEq

/-- The configuration fields of NetworkManager::NetworkConfig consulted by
update / updateWiFi / updateMQTT. -/
structure NetworkConfig where
  wifi_timeout_ms : ℕ
  wifi_retry_interval_ms : ℕ
  wifi_max_retries : ℕ
  mqtt_timeout_ms : ℕ
  mqtt_retry_interval_ms : ℕ
  mqtt_max_retries : ℕ
  health_check_interval_ms : ℕ
  deriving Repr, DecidableEq

/-- Driver-level inputs consumed during one call to NetworkManager::update:
the millisecond clock, the results the WiFi / MQTT drivers report, and the
jitter draw used by calculateBackoffDelay. -/
structure NetEnv where
  now : ℕ
  wifiDriverConnected : Bool
  mqttDriverConnected : Bool
  mqttConnectOk : Bool
  publishOk : Bool
  jitterDraw : ℤ
  deriving Repr, DecidableEq

/-- NetworkManager::isWiFiConnected (header line 128). -/
def NMState.isWiFiConnected (st : NMState) : Bool :=
  st.wifi_state = WiFiState.connected

/-- NetworkManager::isMQTTConnected (header line 129). -/
def NMState.isMQTTConnected (st : NMState) : Bool :=
  st.mqtt_state = MQTTState.connected

/-- NetworkManager::queueMessage (lines 300-327): if the queue is full the
oldest entry (index 0) is shifted out; the new message is stored with
strncpy-truncated topic and payload, retry_count 0, messages_queued is
bumped, and the function always returns true. -/
def queueMessage (st : NMState) (topic payload : List Char) (retained : Bool)
    (qos : ℤ) (now : ℕ) : Bool × NMState :=
  let q0 := st.message_queue
  let q1 := if MAX_QUEUE_SIZE ≤ q0.length then q0.drop 1 else q0
  let msg : QueuedMessage :=
    { topic := topic.take 127, payload := payload.take 511, retained := retained,
      qos := qos, timestamp := now, retry_count := 0 }
  (true, { st with
            message_queue := q1 ++ [msg],
            stats := { st.stats with messages_queued := st.stats.messages_queued + 1 } })

/-- A sequence of queueMessage calls starting from the freshly constructed
manager state (empty queue). -/
def enqueueSeq (msgs : List (List Char × List Char)) : NMState :=
  msgs.foldl (fun st tp => (queueMessage st tp.1 tp.2 false 0 0).2) {}

/-- NetworkManager::processMessageQueue (lines 329-366): with a non-empty
queue and a connected session, attempt to send the head; on success pop it;
on failure increment its retry_count and keep it at the head unless the
incremented count reaches 3, in which case it is dropped. -/
def processMessageQueue (st : NMState) (publishOk : Bool) : NMState :=
  match st.message_queue with
  | [] => st
  | msg :: rest =>
    if st.mqtt_state ≠ MQTTState.connected then st
    else if publishOk then
      { st with message_queue := rest,
                stats := { st.stats with messages_sent := st.stats.messages_sent + 1 } }
    else
      let m1 := { msg with retry_count := msg.retry_count + 1 }
      let st1 := { st with
                    stats := { st.stats with messages_failed := st.stats.messages_failed + 1 } }
      if 3 ≤ m1.retry_count then { st1 with message_queue := rest }
      else { st1 with message_queue := m1 :: rest }

/-- NetworkManager::publish (lines 249-275): when the session is not
Connected the message is queued (returning the queueMessage result); when it
is Connected the driver publish is attempted, and on driver failure the
message is queued but the driver result (false) is returned - the
queueMessage return value on line 271 is discarded. -/
def publish (st : NMState) (topic payload : List Char) (retained : Bool)
    (qos : ℤ) (now : ℕ) (driverPublishOk : Bool) : Bool × NMState :=
  if st.mqtt_state ≠ MQTTState.connected then
    queueMessage st topic payload retained qos now
  else if driverPublishOk then
    (true, { st with stats := { st.stats with messages_sent := st.stats.messages_sent + 1 } })
  else
    let st1 := { st with
                  stats := { st.stats with messages_failed := st.stats.messages_failed + 1 } }
    (false, (queueMessage st1 topic payload retained qos now).2)

/-- NetworkManager::isTimeToRetry (lines 627-629): millis() - last_attempt
compared against the (possibly jittered) interval; modelled for a monotone
clock with now at or after last_attempt. -/
def isTimeToRetry (now last_attempt : ℕ) (interval : ℤ) : Bool :=
  interval ≤ ((now - last_attempt : ℕ) : ℤ)

/-- NetworkManager::updateWiFi (lines 417-469).  startWiFiConnection is
inlined in the reconnecting branch: it stamps wifi_last_attempt with the
clock and moves to connecting. -/
def updateWiFi (cfg : NetworkConfig) (st : NMState) (env : NetEnv) : NMState :=
  match st.wifi_state with
  | .connecting =>
    if env.wifiDriverConnected then
      { st with wifi_connect_time := env.now, wifi_retry_count := 0,
                wifi_state := .connected }
    else if cfg.wifi_timeout_ms < env.now - st.wifi_last_attempt then
      { st with stats := { st.stats with wifi_failures := st.stats.wifi_failures + 1 },
                wifi_state := .reconnecting }
    else st
  | .connected =>
    if env.wifiDriverConnected then st
    else
      { st with stats := { st.stats with wifi_failures := st.stats.wifi_failures + 1 },
                wifi_state := .reconnecting }
  | .reconnecting =>
    if isTimeToRetry env.now st.wifi_last_attempt
        (calculateBackoffDelay cfg.wifi_retry_interval_ms st.wifi_retry_count 60000
          env.jitterDraw) then
      if st.wifi_retry_count < cfg.wifi_max_retries then
        { st with wifi_retry_count := st.wifi_retry_count + 1,
                  stats := { st.stats with
                              wifi_reconnect_count := st.stats.wifi_reconnect_count + 1 },
                  wifi_last_attempt := env.now,
                  wifi_state := .connecting }
      else { st with wifi_state := .failed }
    else st
  | .failed =>
    if 300000 < env.now - st.wifi_last_attempt then
      { st with wifi_retry_count := 0, wifi_state := .reconnecting }
    else st
  | .idle => st
  | .disabled => st

/-- NetworkManager::updateMQTT (lines 471-532).  The guard at the top forces
the session to Idle whenever the link is not Connected.  connectMQTT /
startMQTTConnection are inlined in the idle and reconnecting branches: they
stamp mqtt_last_attempt and land in connected or reconnecting according to
the driver connect result. -/
def updateMQTT (cfg : NetworkConfig) (st : NMState) (env : NetEnv) : NMState :=
  if st.wifi_state ≠ WiFiState.connected then
    if st.mqtt_state ≠ MQTTState.idle then { st with mqtt_state := .idle } else st
  else
    match st.mqtt_state with
    | .connecting =>
      if env.mqttDriverConnected then
        { st with mqtt_connect_time := env.now, mqtt_retry_count := 0,
                  mqtt_state := .connected }
      else if cfg.mqtt_timeout_ms < env.now - st.mqtt_last_attempt then
        { st with stats := { st.stats with mqtt_failures := st.stats.mqtt_failures + 1 },
                  mqtt_state := .reconnecting }
      else st
    | .connected =>
      if env.mqttDriverConnected then st
      else
        { st with stats := { st.stats with mqtt_failures := st.stats.mqtt_failures + 1 },
                  mqtt_state := .reconnecting }
    | .reconnecting =>
      if isTimeToRetry env.now st.mqtt_last_attempt
          (calculateBackoffDelay cfg.mqtt_retry_interval_ms st.mqtt_retry_count 60000
            env.jitterDraw) then
        if st.mqtt_retry_count < cfg.mqtt_max_retries then
          { st with mqtt_retry_count := st.mqtt_retry_count + 1,
                    stats := { st.stats with
                                mqtt_reconnect_count := st.stats.mqtt_reconnect_count + 1 },
                    mqtt_last_attempt := env.now,
                    mqtt_state := if env.mqttConnectOk then .connected else .reconnecting }
        else { st with mqtt_state := .failed }
      else st
    | .failed =>
      if 300000 < env.now - st.mqtt_last_attempt then
        { st with mqtt_retry_count := 0, mqtt_state := .reconnecting }
      else st
    | .idle =>
      { st with mqtt_last_attempt := env.now,
                mqtt_state := if env.mqttConnectOk then .connected else .reconnecting }
    | .disabled => st

/-- Modelled from the spec: NetworkManager::updateHealthCheck is declared
(network_manager.h line 216) and called from update (network_manager.cpp
line 396), but its definition is absent from the sources.  Spec section 4.1
describes update as running "a periodic health check" feeding diagnostics
and assigns it no effect on the state machines or the queue, so it is the
identity on the modelled state. -/
def updateHealthCheck (st : NMState) : NMState := st

/-- NetworkManager::update (lines 372-411): watchdog feed (external), WiFi
machine, MQTT machine, the session dispatch loop (external message
callbacks), one queue-drain attempt, then the periodic health check.  The
statistics/diagnostics tail touches only fields outside the model. -/
def update (cfg : NetworkConfig) (st : NMState) (env : NetEnv) : NMState :=
  let s1 := updateWiFi cfg st env
  let s2 := updateMQTT cfg s1 env
  let s3 := processMessageQueue s2 env.publishOk
  if cfg.health_check_interval_ms < env.now - s3.last_health_check then
    { updateHealthCheck s3 with last_health_check := env.now }
  else s3

/-! ## Sketch-level offline queue (faculty_desk_unit.ino) -/

/-- QueuedMessage of the sketch (faculty_desk_unit.ino): char topic[64],
char payload[512], timestamp, retry_count, is_response. -/
structure InoQueuedMessage where
  topic : List Char
  payload : List Char
  timestamp : ℕ
  retry_count : ℕ
  is_response : Bool
  deriving Repr, DecidableEq

/-- The globals of the sketch touched by processQueuedMessages: the queue
and the mqttConnected flag the failure path may clear. -/
structure InoQueueState where
  messageQueue : List InoQueuedMessage := []
  mqttConnected : Bool := true
  deriving Repr, DecidableEq

/-- processQueuedMessages (faculty_desk_unit.ino lines 167-231): with the
session really connected and a non-empty queue, attempt the head; on success
pop it and return true; on failure increment its retry_count (clearing
mqttConnected when the driver state code is non-zero) and keep it at the
head unless the incremented count exceeds 3, in which case it is dropped;
the failure path returns false. -/
def inoProcessQueuedMessages (st : InoQueueState) (mqttReallyConnected : Bool)
    (publishOk : Bool) (mqttStateCode : ℤ) : Bool × InoQueueState :=
  match st.messageQueue with
  | [] => (false, st)
  | msg :: rest =>
    if ¬ mqttReallyConnected then (false, st)
    else if publishOk then (true, { st with messageQueue := rest })
    else
      let st1 := if mqttStateCode ≠ 0 then { st with mqttConnected := false } else st
      let m1 := { msg with retry_count := msg.retry_count + 1 }
      if 3 < m1.retry_count then (false, { st1 with messageQueue := rest })
      else (false, { st1 with messageQueue := m1 :: rest })

/-! ## BooleanPresenceDetector (faculty_desk_unit.ino lines 479-645) -/

/-- BLE_SIGNAL_STRENGTH_THRESHOLD (config.h line 127). -/
def BLE_SIGNAL_STRENGTH_THRESHOLD : ℤ := -80

/-- BLE_GRACE_PERIOD_MS (config.h line 40). -/
def BLE_GRACE_PERIOD_MS : ℕ := 60000

/-- BLE_RECONNECT_MAX_ATTEMPTS (config.h line 128). -/
def BLE_RECONNECT_MAX_ATTEMPTS : ℕ := 12

/-- BooleanPresenceDetector::CONFIRM_SCANS (line 495). -/
def CONFIRM_SCANS : ℕ := 2

/-- BooleanPresenceDetector::CONFIRM_ABSENCE_SCANS (line 496). -/
def CONFIRM_ABSENCE_SCANS : ℕ := 3

/-- PRESENCE_CONFIRM_TIME (config.h line 129). -/
def PRESENCE_CONFIRM_TIME : ℕ := 6000

/-- The private fields of BooleanPresenceDetector. -/
structure PresenceState where
  currentPresence : Bool := false
  lastKnownPresence : Bool := false
  lastDetectionTime : ℕ := 0
  lastStateChange : ℕ := 0
  gracePeriodStartTime : ℕ := 0
  inGracePeriod : Bool := false
  gracePeriodAttempts : ℕ := 0
  consecutiveDetections : ℕ := 0
  consecutiveMisses : ℕ := 0
  deriving Repr, DecidableEq

/-- BooleanPresenceDetector::updatePresenceStatus (lines 593-609): flip the
confirmed status and reset both counters on an actual change; the publish
and display side effects are external. -/
def updatePresenceStatus (s : PresenceState) (newPresence : Bool) (now : ℕ) : PresenceState :=
  if newPresence ≠ s.currentPresence then
    { s with currentPresence := newPresence, lastStateChange := now,
             consecutiveDetections := 0, consecutiveMisses := 0 }
  else s

/-- BooleanPresenceDetector::startGracePeriod (lines 548-559). -/
def startGracePeriod (s : PresenceState) (now : ℕ) : PresenceState :=
  { s with inGracePeriod := true, gracePeriodStartTime := now,
           gracePeriodAttempts := 0, lastKnownPresence := s.currentPresence }

/-- BooleanPresenceDetector::endGracePeriod (lines 577-591): clear the grace
state; on a failed grace period confirm AWAY through updatePresenceStatus. -/
def endGracePeriod (s : PresenceState) (reconnected : Bool) (now : ℕ) : PresenceState :=
  let s1 := { s with inGracePeriod := false, gracePeriodAttempts := 0 }
  if reconnected then s1 else updatePresenceStatus s1 false now

/-- BooleanPresenceDetector::updateGracePeriod (lines 561-575): bump the
attempt counter; expire the grace period once the 60 s window has elapsed or
the attempt cap is reached. -/
def updateGracePeriod (s : PresenceState) (now : ℕ) : PresenceState :=
  let s1 := { s with gracePeriodAttempts := s.gracePeriodAttempts + 1 }
  if BLE_GRACE_PERIOD_MS ≤ now - s1.gracePeriodStartTime
      ∨ BLE_RECONNECT_MAX_ATTEMPTS ≤ s1.gracePeriodAttempts then
    endGracePeriod s1 false now
  else s1

/-- BooleanPresenceDetector::checkBeacon (lines 499-545).  Note the order in
the found branch: lastDetectionTime, consecutiveDetections and
consecutiveMisses are updated before the weak-signal early return on lines
509-513. -/
def checkBeacon (s : PresenceState) (beaconFound : Bool) (rssi : ℤ) (now : ℕ) : PresenceState :=
  if beaconFound then
    let s1 := { s with lastDetectionTime := now,
                       consecutiveDetections := s.consecutiveDetections + 1,
                       consecutiveMisses := 0 }
    if rssi ≠ 0 ∧ rssi < BLE_SIGNAL_STRENGTH_THRESHOLD then s1
    else
      let s2 := if s1.inGracePeriod then endGracePeriod s1 true now else s1
      if CONFIRM_SCANS ≤ s2.consecutiveDetections ∧ s2.currentPresence = false then
        updatePresenceStatus s2 true now
      else s2
  else
    let s1 := { s with consecutiveMisses := s.consecutiveMisses + 1,
                       consecutiveDetections := 0 }
    if s1.currentPresence = true ∧ CONFIRM_ABSENCE_SCANS ≤ s1.consecutiveMisses then
      if s1.inGracePeriod = false then startGracePeriod s1 now
      else updateGracePeriod s1 now
    else if s1.currentPresence = false then { s1 with inGracePeriod := false }
    else s1

/-- BooleanPresenceDetector::getPresence (lines 613-619): during a grace
period the externally visible presence is the frozen pre-grace value. -/
def getPresence (s : PresenceState) : Bool :=
  if s.inGracePeriod then s.lastKnownPresence else s.currentPresence

/-- One scan observation fed to checkBeacon. -/
structure ScanObs where
  found : Bool
  rssi : ℤ
  time : ℕ
  deriving Repr, DecidableEq

/-- A sequence of checkBeacon calls. -/
def checkBeaconRun (s : PresenceState) (obs : List ScanObs) : PresenceState :=
  obs.foldl (fun s o => checkBeacon s o.found o.rssi o.time) s

/-- True when the list contains no two adjacent true entries. -/
def noTwoAdjacentTrue : List Bool → Bool
  | true :: true :: _ => false
  | _ :: t => noTwoAdjacentTrue t
  | [] => true

/-- The scan-outcome stream of an observation list. -/
def foundStream (obs : List ScanObs) : List Bool :=
  obs.map fun o => o.found

/-! ## AdaptiveBLEScanner (faculty_desk_unit.ino lines 650-929) -/

/-- AdaptiveBLEScanner::ScanMode. -/
inductive ScanMode where
  | searching | monitoring | verifying
  deriving Repr, DecidableEq

/-- The fields of AdaptiveBLEScanner driving mode selection (the stats block
and the presence-detector pointer are external to the claims). -/
structure ScannerState where
  mode : ScanMode := .searching
  lastScanTime : ℕ := 0
  modeChangeTime : ℕ := 0
  consecutiveDetections : ℕ := 0
  consecutiveMisses : ℕ := 0
  deriving Repr, DecidableEq

/-- Counter update on a scan outcome (AdaptiveBLEScanner::update lines
785-792). -/
def scanOutcomeCounters (s : ScannerState) (beaconFound : Bool) : ScannerState :=
  if beaconFound then
    { s with consecutiveDetections := s.consecutiveDetections + 1, consecutiveMisses := 0 }
  else
    { s with consecutiveMisses := s.consecutiveMisses + 1, consecutiveDetections := 0 }

/-- AdaptiveBLEScanner::updateScanMode (lines 871-919): mode selection from
the already-updated counters, followed by the mode-change block that resets
both counters and stamps modeChangeTime. -/
def updateScanMode (s : ScannerState) (now : ℕ) : ScannerState :=
  let newMode :=
    match s.mode with
    | .searching =>
      if 2 ≤ s.consecutiveDetections then ScanMode.verifying else ScanMode.searching
    | .monitoring =>
      if 2 ≤ s.consecutiveMisses then ScanMode.verifying else ScanMode.monitoring
    | .verifying =>
      if PRESENCE_CONFIRM_TIME < now - s.modeChangeTime then
        if s.consecutiveMisses < s.consecutiveDetections then ScanMode.monitoring
        else ScanMode.searching
      else ScanMode.verifying
  if newMode ≠ s.mode then
    { s with mode := newMode, modeChangeTime := now,
             consecutiveDetections := 0, consecutiveMisses := 0 }
  else s

/-- One tick of AdaptiveBLEScanner::update on which the scan interval had
elapsed and a scan ran: stamp lastScanTime, update the counters, then run
updateScanMode.  The stats block and the call into the presence detector are
external to this model. -/
def scanStep (s : ScannerState) (beaconFound : Bool) (now : ℕ) : ScannerState :=
  updateScanMode { scanOutcomeCounters s beaconFound with lastScanTime := now } now

/-- A sequence of scan ticks with their outcomes and clock values. -/
def scanRun (s : ScannerState) (outs : List (Bool × ℕ)) : ScannerState :=
  outs.foldl (fun s o => scanStep s o.1 o.2) s

/-- Outcome stream of a scan-tick list. -/
def outcomeStream (outs : List (Bool × ℕ)) : List Bool :=
  outs.map fun o => o.1

/-- Miss stream (negated outcomes) of a scan-tick list. -/
def missStream (outs : List (Bool × ℕ)) : List Bool :=
  outs.map fun o => !o.1

/-! ## Concrete example states used by witnesses and counterexamples -/

/-- An empty queued message used to populate example queues. -/
def blankQueuedMessage : QueuedMessage :=
  { topic := [], payload := [], retained := false, qos := 0, timestamp := 0, retry_count := 0 }

/-- A NetworkManager state whose queue already holds 10 entries. -/
def fullQueueNMState : NMState :=
  { message_queue := List.replicate 10 blankQueuedMessage }

/-- A queued message that has already failed twice. -/
def twiceFailedMessage : QueuedMessage :=
  { topic := ['t'], payload := ['p'], retained := false, qos := 0, timestamp := 0,
    retry_count := 2 }

/-- A fully connected manager whose queue holds one twice-failed message. -/
def connectedOneMsgNMState : NMState :=
  { wifi_state := .connected, mqtt_state := .connected,
    message_queue := [twiceFailedMessage] }

/-- A fully connected manager with an empty queue. -/
def connectedEmptyNMState : NMState :=
  { wifi_state := .connected, mqtt_state := .connected }

/-- The configuration built by config_robust.h buildNetworkConfig. -/
def robustConfig : NetworkConfig :=
  { wifi_timeout_ms := 30000, wifi_retry_interval_ms := 10000, wifi_max_retries := 5,
    mqtt_timeout_ms := 15000, mqtt_retry_interval_ms := 8000, mqtt_max_retries := 3,
    health_check_interval_ms := 30000 }

/-- An update environment in which every driver reports failure. -/
def allDownEnv : NetEnv :=
  { now := 100, wifiDriverConnected := false, mqttDriverConnected := false,
    mqttConnectOk := false, publishOk := false, jitterDraw := 0 }

/-- A sketch message that has already failed three times. -/
def inoThriceFailedMessage : InoQueuedMessage :=
  { topic := ['t'], payload := ['p'], timestamp := 0, retry_count := 3,
    is_response := false }

/-- A sketch queue holding one message that has already failed three times. -/
def inoThriceFailedState : InoQueueState :=
  { messageQueue := [inoThriceFailedMessage] }

/-- A detector state inside a grace period with the miss threshold met. -/
def graceActivePresence : PresenceState :=
  { currentPresence := true, lastKnownPresence := true, inGracePeriod := true,
    gracePeriodStartTime := 0, gracePeriodAttempts := 0, consecutiveMisses := 3 }

/-- A detector state confirmed present with two misses accumulated. -/
def presentTwoMissPresence : PresenceState :=
  { currentPresence := true, consecutiveMisses := 2 }

/-- A scanner state that has just entered verifying mode at time 0. -/
def verifyingScanner : ScannerState :=
  { mode := .verifying, modeChangeTime := 0 }

/-- A scanner state in searching mode with one detection accumulated. -/
def searchingOneDetScanner : ScannerState :=
  { mode := .searching, consecutiveDetections := 1 }

/-! ## Theorems -/

lemma queueMessage_queue_length (st : NMState) (t p : List Char) (r : Bool)
    (q : ℤ) (n : ℕ) (h : st.message_queue.length ≤ MAX_QUEUE_SIZE) :
    ((queueMessage st t p r q n).2).message_queue.length
      = min (st.message_queue.length + 1) MAX_QUEUE_SIZE := by
  unfold queueMessage
  by_cases hfull : MAX_QUEUE_SIZE ≤ st.message_queue.length
  · have hlen : st.message_queue.length = MAX_QUEUE_SIZE := le_antisymm h hfull
    simp [hfull, hlen, MAX_QUEUE_SIZE]
  · push_neg at hfull
    simp only [if_neg (not_le.mpr hfull)]
    simp only [List.length_append, List.length_singleton]
    omega

lemma enqueue_fold_length_le (msgs : List (List Char × List Char)) (st : NMState)
    (h : st.message_queue.length ≤ MAX_QUEUE_SIZE) :
    ((msgs.foldl (fun st tp => (queueMessage st tp.1 tp.2 false 0 0).2) st)).message_queue.length
      ≤ MAX_QUEUE_SIZE := by
  induction msgs generalizing st with
  | nil => simpa using h
  | cons hd tl ih =>
    simp only [List.foldl_cons]
    apply ih
    rw [queueMessage_queue_length _ _ _ _ _ _ h]
    omega

/-- C3: after any sequence of enqueue operations from the empty queue the
length is at most MAX_QUEUE_SIZE (10), and an enqueue performed when the
queue holds 10 entries removes exactly the head (oldest) entry, appends the
new message at the tail, and leaves the length at 10. -/
theorem C3_queue_bound :
    (∀ msgs : List (List Char × List Char),
      (enqueueSeq msgs).message_queue.length ≤ MAX_QUEUE_SIZE) ∧
    (∀ (st : NMState) (t p : List Char) (r : Bool) (q : ℤ) (n : ℕ),
      st.message_queue.length = MAX_QUEUE_SIZE →
      ((queueMessage st t p r q n).2).message_queue
          = st.message_queue.drop 1 ++
            [{ topic := t.take 127, payload := p.take 511, retained := r,
               qos := q, timestamp := n, retry_count := 0 }] ∧
      ((queueMessage st t p r q n).2).message_queue.length = MAX_QUEUE_SIZE) := by
  constructor
  · intro msgs
    exact enqueue_fold_length_le msgs {} (by simp)
  · intro st t p r q n hfull
    constructor
    · unfold queueMessage
      simp [hfull]
    · rw [queueMessage_queue_length _ _ _ _ _ _ (le_of_eq hfull), hfull]
      decide

/-- Witness for C3 at a concrete full queue. -/
theorem C3_queue_bound_witness :
    (enqueueSeq [(['a'], []), (['b'], [])]).message_queue.length ≤ MAX_QUEUE_SIZE ∧
    ((queueMessage fullQueueNMState [] [] false 0 7).2).message_queue.length
      = MAX_QUEUE_SIZE :=
  ⟨C3_queue_bound.1 _, ((C3_queue_bound.2 fullQueueNMState [] [] false 0 7 (by decide)).2)⟩

/-- C10: the stored entry of queueMessage keeps at most 127 topic characters
and 511 payload characters (the null-terminated strncpy copies), longer
inputs are silently truncated with no error signalled, and the call always
returns true. -/
theorem C10_truncation_always_true :
    ∀ (st : NMState) (t p : List Char) (r : Bool) (q : ℤ) (n : ℕ),
      (queueMessage st t p r q n).1 = true ∧
      ((queueMessage st t p r q n).2).message_queue.getLast?
        = some { topic := t.take 127, payload := p.take 511, retained := r,
                 qos := q, timestamp := n, retry_count := 0 } ∧
      (t.take 127).length ≤ 127 ∧ (p.take 511).length ≤ 511 := by
  intro st t p r q n
  refine ⟨rfl, ?_, ?_, ?_⟩
  · unfold queueMessage
    simp
  · simp [List.length_take]
  · simp [List.length_take]

/-- C1 (counterexample): with base_interval 1, max_interval 1000, retry
count 6 (the cap exponent) and the valid jitter draw 0, the computed backoff
delay is 64, not the claimed max_interval 1000. -/
theorem C1_counterexample :
    0 < (1 : ℕ) ∧ (1 : ℕ) ≤ 1000 ∧ (6 : ℕ) ≤ 6 ∧
    (0 : ℤ).natAbs ≤ backoffJitterMagnitude 1 6 1000 ∧
    calculateBackoffDelay 1 6 1000 0 ≠ (1000 : ℤ) := by
  decide

/-- C1 (amended): for base_interval b > 0, max_interval m ≥ b, any retry
count r and any valid jitter draw j, the computed delay lies in
[b, m + m/10] (positive jitter can push it past the cap); the jitter-free
capped delay is non-decreasing in r and constant for every r at or beyond
the cap exponent 6, equal to min (64 b) m - which equals m only when
64 b ≥ m. -/
theorem C1_amended_backoff (b m r : ℕ) (j : ℤ) (hb : 0 < b) (hm : b ≤ m)
    (hj : j.natAbs ≤ backoffJitterMagnitude b r m) :
    ((b : ℤ) ≤ calculateBackoffDelay b r m j ∧
      calculateBackoffDelay b r m j ≤ (m : ℤ) + ((m * 10 / 100 : ℕ) : ℤ)) ∧
    (∀ r1 r2 : ℕ, r1 ≤ r2 → backoffPreDelay b r1 m ≤ backoffPreDelay b r2 m) ∧
    (∀ rc : ℕ, 6 ≤ rc → backoffPreDelay b rc m = min (b * 64) m) := by
  refine ⟨⟨le_max_right _ _, ?_⟩, ?_, ?_⟩
  · apply max_le
    · have hpre : backoffPreDelay b r m ≤ m := min_le_right _ _
      have hjle : j ≤ (backoffJitterMagnitude b r m : ℤ) :=
        le_trans Int.le_natAbs (by exact_mod_cast hj)
      have hmag : backoffJitterMagnitude b r m ≤ m * 10 / 100 :=
        Nat.div_le_div_right (Nat.mul_le_mul_right _ hpre)
      exact add_le_add (by exact_mod_cast hpre)
        (le_trans hjle (by exact_mod_cast hmag))
    · exact le_trans (by exact_mod_cast hm) (le_add_of_nonneg_right (by positivity))
  · intro r1 r2 h12
    refine min_le_min ?_ le_rfl
    exact Nat.mul_le_mul_left _
      (Nat.pow_le_pow_right (by norm_num) (min_le_min h12 le_rfl))
  · intro rc hrc
    unfold backoffPreDelay
    rw [min_eq_right hrc]
    norm_num

/-- Witness for C1 at base 100, retry 3, max 60000, jitter draw -80. -/
theorem C1_amended_backoff_witness :
    ((100 : ℤ) ≤ calculateBackoffDelay 100 3 60000 (-80) ∧
      calculateBackoffDelay 100 3 60000 (-80)
        ≤ (60000 : ℤ) + ((60000 * 10 / 100 : ℕ) : ℤ)) ∧
    (∀ r1 r2 : ℕ, r1 ≤ r2 → backoffPreDelay 100 r1 60000 ≤ backoffPreDelay 100 r2 60000) ∧
    (∀ rc : ℕ, 6 ≤ rc → backoffPreDelay 100 rc 60000 = min (100 * 64) 60000) :=
  C1_amended_backoff 100 60000 3 (-80) (by decide) (by decide) (by decide)

/-- C2 (counterexample): with a connected session and a head message that
has already failed twice, a further failed drain attempt removes it even
though its incremented retry_count is 3, which does not exceed 3:
NetworkManager::processMessageQueue drops a message after 3 failed sends,
not 4 as claimed. -/
theorem C2_counterexample :
    twiceFailedMessage.retry_count + 1 = 3 ∧
    ¬ 3 < twiceFailedMessage.retry_count + 1 ∧
    (processMessageQueue connectedOneMsgNMState false).message_queue = [] := by
  decide

/-- C2 (amended): a failed drain attempt increments the head message's
retry_count and leaves it at the head unless the incremented count crosses
the drop threshold, in which case the message is removed (and, being gone
from the queue, never retried): NetworkManager::processMessageQueue drops
when the count reaches 3 (after 3 failed sends), while the sketch's
processQueuedMessages drops when the count exceeds 3 (after 4 failed
sends). -/
theorem C2_amended_retry_exhaustion :
    (∀ (st : NMState) (msg : QueuedMessage) (rest : List QueuedMessage),
      st.mqtt_state = MQTTState.connected → st.message_queue = msg :: rest →
      (msg.retry_count + 1 < 3 →
        (processMessageQueue st false).message_queue
          = { msg with retry_count := msg.retry_count + 1 } :: rest) ∧
      (3 ≤ msg.retry_count + 1 →
        (processMessageQueue st false).message_queue = rest)) ∧
    (∀ (st : InoQueueState) (msg : InoQueuedMessage) (rest : List InoQueuedMessage)
        (code : ℤ),
      st.messageQueue = msg :: rest →
      (msg.retry_count + 1 ≤ 3 →
        ((inoProcessQueuedMessages st true false code).2).messageQueue
          = { msg with retry_count := msg.retry_count + 1 } :: rest) ∧
      (3 < msg.retry_count + 1 →
        ((inoProcessQueuedMessages st true false code).2).messageQueue = rest)) := by
  constructor
  · intro st msg rest hconn hq
    unfold processMessageQueue
    rw [hq]
    constructor
    · intro hlt
      simp [hconn, Nat.not_le.mpr hlt]
    · intro hge
      simp [hconn, hge]
  · intro st msg rest code hq
    unfold inoProcessQueuedMessages
    rw [hq]
    constructor
    · intro hle
      by_cases hc : code = 0
      · simp [hc, Nat.not_lt.mpr hle]
      · simp [hc, Nat.not_lt.mpr hle]
    · intro hlt
      by_cases hc : code = 0
      · simp [hc, hlt]
      · simp [hc, hlt]

/-- Witness for C2: the twice-failed NetworkManager message is dropped on
its third failure; the thrice-failed sketch message is dropped on its
fourth. -/
theorem C2_amended_retry_exhaustion_witness :
    (processMessageQueue connectedOneMsgNMState false).message_queue = [] ∧
    ((inoProcessQueuedMessages inoThriceFailedState true false 0).2).messageQueue = [] :=
  ⟨(C2_amended_retry_exhaustion.1 connectedOneMsgNMState twiceFailedMessage []
      rfl rfl).2 (by decide),
   (C2_amended_retry_exhaustion.2 inoThriceFailedState inoThriceFailedMessage []
      0 rfl).2 (by decide)⟩

/-- C4 (counterexample): in a connected session with a failing driver send,
publish enqueues the message and the enqueue returns true, yet publish
returns false - it does not return the result of the enqueue. -/
theorem C4_counterexample :
    (publish connectedEmptyNMState ['a'] ['b'] false 0 5 false).1 = false ∧
    (queueMessage connectedEmptyNMState ['a'] ['b'] false 0 5).1 = true ∧
    ((publish connectedEmptyNMState ['a'] ['b'] false 0 5 false).2).message_queue.length
      = 1 := by
  decide

/-- C4 (amended): when the session is not Connected, publish enqueues
directly and returns the enqueue result; when the session is Connected and
the driver send fails, publish still enqueues the message but returns
false - the driver result - discarding the enqueue result, which is always
true. -/
theorem C4_amended_publish :
    ∀ (st : NMState) (t p : List Char) (r : Bool) (q : ℤ) (n : ℕ),
      (st.mqtt_state ≠ MQTTState.connected →
        ∀ driverOk : Bool, publish st t p r q n driverOk = queueMessage st t p r q n) ∧
      (st.mqtt_state = MQTTState.connected →
        (publish st t p r q n false).1 = false ∧
        (queueMessage st t p r q n).1 = true ∧
        ((publish st t p r q n false).2).message_queue
          = ((queueMessage st t p r q n).2).message_queue) := by
  intro st t p r q n
  constructor
  · intro hne driverOk
    simp [publish, hne]
  · intro hconn
    refine ⟨?_, rfl, ?_⟩
    · simp [publish, hconn]
    · simp [publish, queueMessage, hconn]

/-- Witness for C4 at a concrete connected state with a failing driver. -/
theorem C4_amended_publish_witness :
    (publish connectedEmptyNMState ['a'] [] false 0 3 false).1 = false ∧
    (queueMessage connectedEmptyNMState ['a'] [] false 0 3).1 = true ∧
    ((publish connectedEmptyNMState ['a'] [] false 0 3 false).2).message_queue
      = ((queueMessage connectedEmptyNMState ['a'] [] false 0 3).2).message_queue :=
  (C4_amended_publish connectedEmptyNMState ['a'] [] false 0 3).2 rfl

lemma updateMQTT_wifi_state (cfg : NetworkConfig) (st : NMState) (env : NetEnv) :
    (updateMQTT cfg st env).wifi_state = st.wifi_state := by
  unfold updateMQTT
  by_cases hw : st.wifi_state ≠ WiFiState.connected
  · rw [if_pos hw]
    split <;> rfl
  · rw [if_neg hw]
    cases h : st.mqtt_state <;> simp only [h] <;> (repeat' split) <;> rfl

lemma processMessageQueue_wifi_state (st : NMState) (publishOk : Bool) :
    (processMessageQueue st publishOk).wifi_state = st.wifi_state := by
  unfold processMessageQueue
  cases h : st.message_queue <;> simp only [h] <;> (repeat' split) <;> rfl

lemma processMessageQueue_mqtt_state (st : NMState) (publishOk : Bool) :
    (processMessageQueue st publishOk).mqtt_state = st.mqtt_state := by
  unfold processMessageQueue
  cases h : st.message_queue <;> simp only [h] <;> (repeat' split) <;> rfl

lemma updateMQTT_idle_of_link_down (cfg : NetworkConfig) (st : NMState) (env : NetEnv)
    (h : st.wifi_state ≠ WiFiState.connected) :
    (updateMQTT cfg st env).mqtt_state = MQTTState.idle := by
  unfold updateMQTT
  rw [if_pos h]
  by_cases hm : st.mqtt_state ≠ MQTTState.idle
  · rw [if_pos hm]
  · rw [if_neg hm]
    push_neg at hm
    exact hm

lemma update_wifi_state (cfg : NetworkConfig) (st : NMState) (env : NetEnv) :
    (update cfg st env).wifi_state = (updateWiFi cfg st env).wifi_state := by
  unfold update updateHealthCheck
  dsimp only
  split <;> simp [processMessageQueue_wifi_state, updateMQTT_wifi_state]

lemma update_mqtt_state (cfg : NetworkConfig) (st : NMState) (env : NetEnv) :
    (update cfg st env).mqtt_state
      = (updateMQTT cfg (updateWiFi cfg st env) env).mqtt_state := by
  unfold update updateHealthCheck
  dsimp only
  split <;> simp [processMessageQueue_mqtt_state]

/-- C5: whenever the link state is not Connected at the point the session
state machine is advanced inside update - in particular whenever updateWiFi
has just transitioned it away from Connected - the session state is Idle by
the end of that same update call, and nothing later in the call moves the
link state again. -/
theorem C5_session_forced_idle (cfg : NetworkConfig) (st : NMState) (env : NetEnv)
    (h : (updateWiFi cfg st env).wifi_state ≠ WiFiState.connected) :
    (update cfg st env).mqtt_state = MQTTState.idle ∧
    (update cfg st env).wifi_state = (updateWiFi cfg st env).wifi_state :=
  ⟨by rw [update_mqtt_state]; exact updateMQTT_idle_of_link_down cfg _ env h,
   update_wifi_state cfg st env⟩

/-- Witness for C5 at the freshly constructed manager under an
all-drivers-down environment. -/
theorem C5_session_forced_idle_witness :
    (update robustConfig {} allDownEnv).mqtt_state = MQTTState.idle ∧
    (update robustConfig {} allDownEnv).wifi_state
      = (updateWiFi robustConfig {} allDownEnv).wifi_state :=
  C5_session_forced_idle robustConfig {} allDownEnv (by decide)

/-- C6 (counterexample): a found observation with weak signal (-100 dBm,
below the -80 threshold) does advance both confirmation counters: the
consecutive-detection counter is incremented and the consecutive-miss
counter is reset, contradicting the claim that neither counter is
advanced. -/
theorem C6_counterexample :
    (-100 : ℤ) ≠ 0 ∧ (-100 : ℤ) < BLE_SIGNAL_STRENGTH_THRESHOLD ∧
    (checkBeacon presentTwoMissPresence true (-100) 50).consecutiveDetections
        ≠ presentTwoMissPresence.consecutiveDetections ∧
    (checkBeacon presentTwoMissPresence true (-100) 50).consecutiveMisses
        ≠ presentTwoMissPresence.consecutiveMisses := by
  decide

/-- C6 (amended): a found observation whose reported signal strength is
nonzero and below the fixed threshold is ignored for grace-cancellation and
confirmation purposes - confirmed presence, last-known presence, the grace
flag, the grace attempt counter and start time are all unchanged - but it
does touch the counters: consecutiveDetections is incremented,
consecutiveMisses is reset to 0, and lastDetectionTime is stamped, because
the weak-signal early return sits after the counter updates. -/
theorem C6_amended_weak_signal (s : PresenceState) (rssi : ℤ) (now : ℕ)
    (h0 : rssi ≠ 0) (hw : rssi < BLE_SIGNAL_STRENGTH_THRESHOLD) :
    checkBeacon s true rssi now
      = { s with lastDetectionTime := now,
                 consecutiveDetections := s.consecutiveDetections + 1,
                 consecutiveMisses := 0 } := by
  unfold checkBeacon
  simp [h0, hw]

/-- Witness for C6 at a present detector with two misses accumulated. -/
theorem C6_amended_weak_signal_witness :
    checkBeacon presentTwoMissPresence true (-100) 50
      = { presentTwoMissPresence with
          lastDetectionTime := 50, consecutiveDetections := 1,
          consecutiveMisses := 0 } :=
  C6_amended_weak_signal presentTwoMissPresence (-100) 50 (by decide) (by decide)

/-- C8 (counterexample): a found scan with weak signal (-100 dBm) observed
1 s into an active grace period - strictly before expiry - leaves the grace
flag set, so a found scan before expiry does not always clear it. -/
theorem C8_counterexample :
    1000 - graceActivePresence.gracePeriodStartTime < BLE_GRACE_PERIOD_MS ∧
    (checkBeacon graceActivePresence true (-100) 1000).inGracePeriod = true := by
  decide

/-- C8 (amended): during an active grace period (presence confirmed true):
a found scan of adequate signal (rssi reported as 0 or at least the
threshold) ends the grace period with presence kept true; a weak-signal
found leaves the grace period active; a miss observed strictly before
expiry of the 60 s window and before the attempt cap keeps presence (both
confirmed and reported) true with the grace period still active; a miss at
or after expiry of the window or the attempt cap, with the absence
threshold of 3 consecutive misses met, flips presence to false and ends the
grace period; and once presence is false further misses never change it
again, so the flip fires exactly once. -/
theorem C8_amended_grace_boundary :
    (∀ (s : PresenceState) (rssi : ℤ) (now : ℕ),
      s.inGracePeriod = true → s.currentPresence = true →
      (rssi = 0 ∨ BLE_SIGNAL_STRENGTH_THRESHOLD ≤ rssi) →
      (checkBeacon s true rssi now).inGracePeriod = false ∧
      (checkBeacon s true rssi now).currentPresence = true ∧
      getPresence (checkBeacon s true rssi now) = true) ∧
    (∀ (s : PresenceState) (rssi : ℤ) (now : ℕ),
      s.inGracePeriod = true → rssi ≠ 0 → rssi < BLE_SIGNAL_STRENGTH_THRESHOLD →
      (checkBeacon s true rssi now).inGracePeriod = true) ∧
    (∀ (s : PresenceState) (now : ℕ),
      s.inGracePeriod = true → s.currentPresence = true → s.lastKnownPresence = true →
      now - s.gracePeriodStartTime < BLE_GRACE_PERIOD_MS →
      s.gracePeriodAttempts + 1 < BLE_RECONNECT_MAX_ATTEMPTS →
      (checkBeacon s false 0 now).currentPresence = true ∧
      (checkBeacon s false 0 now).inGracePeriod = true ∧
      getPresence (checkBeacon s false 0 now) = true) ∧
    (∀ (s : PresenceState) (now : ℕ),
      s.inGracePeriod = true → s.currentPresence = true →
      CONFIRM_ABSENCE_SCANS ≤ s.consecutiveMisses + 1 →
      (BLE_GRACE_PERIOD_MS ≤ now - s.gracePeriodStartTime ∨
        BLE_RECONNECT_MAX_ATTEMPTS ≤ s.gracePeriodAttempts + 1) →
      (checkBeacon s false 0 now).currentPresence = false ∧
      (checkBeacon s false 0 now).inGracePeriod = false ∧
      getPresence (checkBeacon s false 0 now) = false) ∧
    (∀ (s : PresenceState) (rssi : ℤ) (now : ℕ),
      s.currentPresence = false →
      (checkBeacon s false rssi now).currentPresence = false) := by
  refine ⟨?_, ?_, ?_, ?_, ?_⟩
  · intro s rssi now hg hp hsig
    have hcond : ¬ (rssi ≠ 0 ∧ rssi < BLE_SIGNAL_STRENGTH_THRESHOLD) := by
      rcases hsig with h | h
      · simp [h]
      · intro hc
        exact absurd h (not_le.mpr hc.2)
    unfold checkBeacon
    simp [hcond, hg, hp, endGracePeriod, getPresence]
  · intro s rssi now hg h0 hw
    unfold checkBeacon
    simp [h0, hw, hg]
  · intro s now hg hp hk hwin hcap
    by_cases hm : CONFIRM_ABSENCE_SCANS ≤ s.consecutiveMisses + 1
    · unfold checkBeacon
      simp [hp, hm, hg, updateGracePeriod, not_le.mpr hwin, not_le.mpr hcap,
        getPresence, hk]
    · unfold checkBeacon
      simp [hp, hm, getPresence, hg, hk]
  · intro s now hg hp hm hexp
    unfold checkBeacon
    simp [hp, hm, hg, updateGracePeriod, hexp, endGracePeriod,
      updatePresenceStatus, getPresence]
  · intro s rssi now hp
    unfold checkBeacon
    simp [hp]

/-- Witness for C8: an adequate found 1 s into the grace period cancels it;
a miss 5 s in advances it without a flip; a miss at 70 s flips presence
exactly once; a later miss changes nothing. -/
theorem C8_amended_grace_boundary_witness :
    ((checkBeacon graceActivePresence true (-50) 1000).inGracePeriod = false ∧
      (checkBeacon graceActivePresence true (-50) 1000).currentPresence = true ∧
      getPresence (checkBeacon graceActivePresence true (-50) 1000) = true) ∧
    ((checkBeacon graceActivePresence false 0 5000).currentPresence = true ∧
      (checkBeacon graceActivePresence false 0 5000).inGracePeriod = true ∧
      getPresence (checkBeacon graceActivePresence false 0 5000) = true) ∧
    ((checkBeacon graceActivePresence false 0 70000).currentPresence = false ∧
      (checkBeacon graceActivePresence false 0 70000).inGracePeriod = false ∧
      getPresence (checkBeacon graceActivePresence false 0 70000) = false) :=
  ⟨C8_amended_grace_boundary.1 graceActivePresence (-50) 1000 rfl rfl
      (Or.inr (by decide)),
   C8_amended_grace_boundary.2.2.1 graceActivePresence 5000 rfl rfl rfl
      (by decide) (by decide),
   C8_amended_grace_boundary.2.2.2.1 graceActivePresence 70000 rfl rfl
      (by decide) (Or.inl (by decide))⟩

lemma noTwoAdjacentTrue_tail (a : Bool) (l : List Bool)
    (h : noTwoAdjacentTrue (a :: l) = true) : noTwoAdjacentTrue l = true := by
  cases a with
  | false => simpa [noTwoAdjacentTrue] using h
  | true =>
    cases l with
    | nil => rfl
    | cons b t =>
      cases b with
      | false => simpa [noTwoAdjacentTrue] using h
      | true => simp [noTwoAdjacentTrue] at h

lemma noTwoAdjacentTrue_head_after_true (l : List Bool)
    (h : noTwoAdjacentTrue (true :: l) = true) :
    l = [] ∨ ∃ t, l = false :: t := by
  cases l with
  | nil => exact Or.inl rfl
  | cons b t =>
    cases b with
    | false => exact Or.inr ⟨t, rfl⟩
    | true => simp [noTwoAdjacentTrue] at h

lemma checkBeacon_miss_away (s : PresenceState) (rssi : ℤ) (now : ℕ)
    (h : s.currentPresence = false) :
    (checkBeacon s false rssi now).currentPresence = false ∧
    (checkBeacon s false rssi now).consecutiveDetections = 0 := by
  unfold checkBeacon
  simp [h]

lemma checkBeacon_found_single (s : PresenceState) (rssi : ℤ) (now : ℕ)
    (h : s.currentPresence = false) (hd : s.consecutiveDetections = 0) :
    (checkBeacon s true rssi now).currentPresence = false ∧
    (checkBeacon s true rssi now).consecutiveDetections = 1 := by
  by_cases hw : rssi ≠ 0 ∧ rssi < BLE_SIGNAL_STRENGTH_THRESHOLD
  · unfold checkBeacon
    simp [hw, h, hd]
  · by_cases hg : s.inGracePeriod
    · unfold checkBeacon
      simp [hw, h, hd, hg, endGracePeriod, CONFIRM_SCANS]
    · unfold checkBeacon
      simp [hw, h, hd, hg, CONFIRM_SCANS]

lemma presence_stays_false_aux (obs : List ScanObs) :
    ∀ s : PresenceState, s.currentPresence = false →
      noTwoAdjacentTrue (foundStream obs) = true →
      (s.consecutiveDetections = 0 ∨ ∀ o t, obs = o :: t → o.found = false) →
      (checkBeaconRun s obs).currentPresence = false := by
  induction obs with
  | nil =>
    intro s h _ _
    simpa [checkBeaconRun] using h
  | cons o rest ih =>
    intro s h hnt hdisj
    have hrunstep : checkBeaconRun s (o :: rest)
        = checkBeaconRun (checkBeacon s o.found o.rssi o.time) rest := rfl
    rw [hrunstep]
    have hnt_tail : noTwoAdjacentTrue (foundStream rest) = true :=
      noTwoAdjacentTrue_tail o.found (foundStream rest)
        (by simpa [foundStream] using hnt)
    cases ho : o.found with
    | false =>
      have step := checkBeacon_miss_away s o.rssi o.time h
      exact ih _ step.1 hnt_tail (Or.inl step.2)
    | true =>
      have hd : s.consecutiveDetections = 0 := by
        rcases hdisj with hd | hhead
        · exact hd
        · exact absurd (hhead o rest rfl) (by simp [ho])
      have step := checkBeacon_found_single s o.rssi o.time h hd
      refine ih _ step.1 hnt_tail (Or.inr ?_)
      intro o2 t2 ht2
      have hhd := noTwoAdjacentTrue_head_after_true (foundStream rest)
        (by simpa [foundStream, ho] using hnt)
      rcases hhd with hnil | ⟨t, hcons⟩
      · subst ht2
        simp [foundStream] at hnil
      · subst ht2
        simp [foundStream] at hcons
        exact hcons.1

/-- C7: (a) fed any observation sequence containing no two consecutive
found results, a detector that is currently away (confirmed presence false,
no accumulated detections) never confirms presence - applied to every
prefix this says presence never transitions false→true; (b) a step that
flips confirmed presence from true to false can only be a miss observed
with the grace period already started and the absence threshold of 3
consecutive misses reached at that step - never a direct true→false flip
without grace. -/
theorem C7_presence_hysteresis :
    (∀ (obs : List ScanObs) (s : PresenceState),
      s.currentPresence = false → s.consecutiveDetections = 0 →
      noTwoAdjacentTrue (foundStream obs) = true →
      (checkBeaconRun s obs).currentPresence = false) ∧
    (∀ (s : PresenceState) (f : Bool) (rssi : ℤ) (now : ℕ),
      s.currentPresence = true → (checkBeacon s f rssi now).currentPresence = false →
      f = false ∧ s.inGracePeriod = true ∧
      CONFIRM_ABSENCE_SCANS ≤ s.consecutiveMisses + 1) := by
  constructor
  · intro obs s hp hd hnt
    exact presence_stays_false_aux obs s hp hnt (Or.inl hd)
  · intro s f rssi now hp hpost
    cases f with
    | true =>
      exfalso
      by_cases hw : rssi ≠ 0 ∧ rssi < BLE_SIGNAL_STRENGTH_THRESHOLD
      · unfold checkBeacon at hpost
        simp [hw, hp] at hpost
      · by_cases hg : s.inGracePeriod
        · unfold checkBeacon at hpost
          simp [hw, hp, hg, endGracePeriod] at hpost
        · unfold checkBeacon at hpost
          simp [hw, hp, hg] at hpost
    | false =>
      refine ⟨rfl, ?_, ?_⟩
      · by_contra hng
        have hg : s.inGracePeriod = false := by
          cases hgs : s.inGracePeriod
          · rfl
          · exact absurd hgs hng
        by_cases hm : CONFIRM_ABSENCE_SCANS ≤ s.consecutiveMisses + 1
        · unfold checkBeacon at hpost
          simp [hp, hm, hg, startGracePeriod] at hpost
        · unfold checkBeacon at hpost
          simp [hp, hm] at hpost
      · by_contra hm
        unfold checkBeacon at hpost
        simp [hp, hm] at hpost

/-- Witness for C7: a sequence alternating found and miss never confirms
presence; the concrete expiry flip at 70 s satisfies the grace and
miss-threshold conditions. -/
theorem C7_presence_hysteresis_witness :
    (checkBeaconRun {} [⟨true, 0, 1⟩, ⟨false, 0, 2⟩, ⟨true, 0, 3⟩]).currentPresence
        = false ∧
    (false = false ∧ graceActivePresence.inGracePeriod = true ∧
      CONFIRM_ABSENCE_SCANS ≤ graceActivePresence.consecutiveMisses + 1) :=
  ⟨C7_presence_hysteresis.1 [⟨true, 0, 1⟩, ⟨false, 0, 2⟩, ⟨true, 0, 3⟩] {} rfl rfl
      (by decide),
   C7_presence_hysteresis.2 graceActivePresence false 0 70000 rfl (by decide)⟩

lemma scanStep_search_miss (s : ScannerState) (now : ℕ)
    (h : s.mode = ScanMode.searching) :
    (scanStep s false now).mode = ScanMode.searching ∧
    (scanStep s false now).consecutiveDetections = 0 := by
  unfold scanStep scanOutcomeCounters updateScanMode
  simp [h]

lemma scanStep_search_found_single (s : ScannerState) (now : ℕ)
    (h : s.mode = ScanMode.searching) (hd : s.consecutiveDetections = 0) :
    (scanStep s true now).mode = ScanMode.searching ∧
    (scanStep s true now).consecutiveDetections = 1 := by
  unfold scanStep scanOutcomeCounters updateScanMode
  simp [h, hd]

lemma scanStep_monitor_found (s : ScannerState) (now : ℕ)
    (h : s.mode = ScanMode.monitoring) :
    (scanStep s true now).mode = ScanMode.monitoring ∧
    (scanStep s true now).consecutiveMisses = 0 := by
  unfold scanStep scanOutcomeCounters updateScanMode
  simp [h]

lemma scanStep_monitor_miss_single (s : ScannerState) (now : ℕ)
    (h : s.mode = ScanMode.monitoring) (hm : s.consecutiveMisses = 0) :
    (scanStep s false now).mode = ScanMode.monitoring ∧
    (scanStep s false now).consecutiveMisses = 1 := by
  unfold scanStep scanOutcomeCounters updateScanMode
  simp [h, hm]

lemma search_never_verifying_aux (outs : List (Bool × ℕ)) :
    ∀ s : ScannerState, s.mode = ScanMode.searching →
      noTwoAdjacentTrue (outcomeStream outs) = true →
      (s.consecutiveDetections = 0 ∨ ∀ o t, outs = o :: t → o.1 = false) →
      (scanRun s outs).mode = ScanMode.searching := by
  induction outs with
  | nil =>
    intro s h _ _
    simpa [scanRun] using h
  | cons o rest ih =>
    intro s h hnt hdisj
    have hstep : scanRun s (o :: rest) = scanRun (scanStep s o.1 o.2) rest := rfl
    rw [hstep]
    have hnt_tail : noTwoAdjacentTrue (outcomeStream rest) = true :=
      noTwoAdjacentTrue_tail o.1 (outcomeStream rest)
        (by simpa [outcomeStream] using hnt)
    cases ho : o.1 with
    | false =>
      have step := scanStep_search_miss s o.2 h
      exact ih _ step.1 hnt_tail (Or.inl step.2)
    | true =>
      have hd : s.consecutiveDetections = 0 := by
        rcases hdisj with hd | hhead
        · exact hd
        · exact absurd (hhead o rest rfl) (by simp [ho])
      have step := scanStep_search_found_single s o.2 h hd
      refine ih _ step.1 hnt_tail (Or.inr ?_)
      intro o2 t2 ht2
      have hhd := noTwoAdjacentTrue_head_after_true (outcomeStream rest)
        (by simpa [outcomeStream, ho] using hnt)
      rcases hhd with hnil | ⟨t, hcons⟩
      · subst ht2
        simp [outcomeStream] at hnil
      · subst ht2
        simp [outcomeStream] at hcons
        exact hcons.1

lemma monitor_never_verifying_aux (outs : List (Bool × ℕ)) :
    ∀ s : ScannerState, s.mode = ScanMode.monitoring →
      noTwoAdjacentTrue (missStream outs) = true →
      (s.consecutiveMisses = 0 ∨ ∀ o t, outs = o :: t → o.1 = true) →
      (scanRun s outs).mode = ScanMode.monitoring := by
  induction outs with
  | nil =>
    intro s h _ _
    simpa [scanRun] using h
  | cons o rest ih =>
    intro s h hnt hdisj
    have hstep : scanRun s (o :: rest) = scanRun (scanStep s o.1 o.2) rest := rfl
    rw [hstep]
    have hnt_tail : noTwoAdjacentTrue (missStream rest) = true :=
      noTwoAdjacentTrue_tail (!o.1) (missStream rest)
        (by simpa [missStream] using hnt)
    cases ho : o.1 with
    | true =>
      have step := scanStep_monitor_found s o.2 h
      exact ih _ step.1 hnt_tail (Or.inl step.2)
    | false =>
      have hm : s.consecutiveMisses = 0 := by
        rcases hdisj with hm | hhead
        · exact hm
        · exact absurd (hhead o rest rfl) (by simp [ho])
      have step := scanStep_monitor_miss_single s o.2 h hm
      refine ih _ step.1 hnt_tail (Or.inr ?_)
      intro o2 t2 ht2
      have hhd := noTwoAdjacentTrue_head_after_true (missStream rest)
        (by simpa [missStream, ho] using hnt)
      rcases hhd with hnil | ⟨t, hcons⟩
      · subst ht2
        simp [missStream] at hnil
      · subst ht2
        simp [missStream] at hcons
        exact hcons.1

/-- C9: Verifying is entered from Searching exactly when a scan outcome is a
detection following at least one already-accumulated consecutive detection
(so exactly on a run of at least 2 consecutive detections - the counter
equals the trailing run length, witnessed by the two never-entering
conjuncts), and from Monitoring exactly symmetrically on misses; it is held
as long as the elapsed time since the mode change is within the minimum
confirmation time; and once that time has strictly elapsed it resolves to
Monitoring when the updated consecutive-detection counter exceeds the
consecutive-miss counter and to Searching otherwise. -/
theorem C9_verifying_mode :
    (∀ (s : ScannerState) (f : Bool) (now : ℕ), s.mode = ScanMode.searching →
      ((scanStep s f now).mode = ScanMode.verifying ↔
        (f = true ∧ 1 ≤ s.consecutiveDetections))) ∧
    (∀ (s : ScannerState) (f : Bool) (now : ℕ), s.mode = ScanMode.monitoring →
      ((scanStep s f now).mode = ScanMode.verifying ↔
        (f = false ∧ 1 ≤ s.consecutiveMisses))) ∧
    (∀ (outs : List (Bool × ℕ)) (s : ScannerState), s.mode = ScanMode.searching →
      s.consecutiveDetections = 0 →
      noTwoAdjacentTrue (outcomeStream outs) = true →
      (scanRun s outs).mode = ScanMode.searching) ∧
    (∀ (outs : List (Bool × ℕ)) (s : ScannerState), s.mode = ScanMode.monitoring →
      s.consecutiveMisses = 0 →
      noTwoAdjacentTrue (missStream outs) = true →
      (scanRun s outs).mode = ScanMode.monitoring) ∧
    (∀ (s : ScannerState) (f : Bool) (now : ℕ), s.mode = ScanMode.verifying →
      now - s.modeChangeTime ≤ PRESENCE_CONFIRM_TIME →
      (scanStep s f now).mode = ScanMode.verifying) ∧
    (∀ (s : ScannerState) (f : Bool) (now : ℕ), s.mode = ScanMode.verifying →
      PRESENCE_CONFIRM_TIME < now - s.modeChangeTime →
      (scanStep s f now).mode
        = if (scanOutcomeCounters s f).consecutiveMisses
              < (scanOutcomeCounters s f).consecutiveDetections
          then ScanMode.monitoring else ScanMode.searching) := by
  refine ⟨?_, ?_, ?_, ?_, ?_, ?_⟩
  · intro s f now h
    cases f with
    | true =>
      by_cases hd : 1 ≤ s.consecutiveDetections
      · have h2 : 2 ≤ s.consecutiveDetections + 1 := by omega
        unfold scanStep scanOutcomeCounters updateScanMode
        simp [h, h2, hd]
      · have hd0 : s.consecutiveDetections = 0 := by omega
        unfold scanStep scanOutcomeCounters updateScanMode
        simp [h, hd0]
    | false =>
      unfold scanStep scanOutcomeCounters updateScanMode
      simp [h]
  · intro s f now h
    cases f with
    | false =>
      by_cases hm : 1 ≤ s.consecutiveMisses
      · have h2 : 2 ≤ s.consecutiveMisses + 1 := by omega
        unfold scanStep scanOutcomeCounters updateScanMode
        simp [h, h2, hm]
      · have hm0 : s.consecutiveMisses = 0 := by omega
        unfold scanStep scanOutcomeCounters updateScanMode
        simp [h, hm0]
    | true =>
      unfold scanStep scanOutcomeCounters updateScanMode
      simp [h]
  · intro outs s h hd hnt
    exact search_never_verifying_aux outs s h hnt (Or.inl hd)
  · intro outs s h hm hnt
    exact monitor_never_verifying_aux outs s h hnt (Or.inl hm)
  · intro s f now h hhold
    unfold scanStep scanOutcomeCounters updateScanMode
    cases f with
    | true => simp [h, Nat.not_lt.mpr hhold]
    | false => simp [h, Nat.not_lt.mpr hhold]
  · intro s f now h helap
    cases f with
    | true =>
      unfold scanStep scanOutcomeCounters updateScanMode
      simp [h, helap]
    | false =>
      unfold scanStep scanOutcomeCounters updateScanMode
      simp [h, helap]

/-- Witness for C9: a second consecutive detection in Searching enters
Verifying; a tick 3 s after entering Verifying stays there; a detection
tick 7 s after entering resolves it to Monitoring; no-two-consecutive
streams leave Searching and Monitoring untouched. -/
theorem C9_verifying_mode_witness :
    (scanStep searchingOneDetScanner true 5).mode = ScanMode.verifying ∧
    (scanStep verifyingScanner false 3000).mode = ScanMode.verifying ∧
    (scanStep verifyingScanner true 7000).mode
      = (if (scanOutcomeCounters verifyingScanner true).consecutiveMisses
            < (scanOutcomeCounters verifyingScanner true).consecutiveDetections
          then ScanMode.monitoring else ScanMode.searching) ∧
    (scanRun {} [(true, 1), (false, 2), (true, 3)]).mode = ScanMode.searching :=
  ⟨(C9_verifying_mode.1 searchingOneDetScanner true 5 rfl).mpr ⟨rfl, by decide⟩,
   C9_verifying_mode.2.2.2.2.1 verifyingScanner false 3000 rfl (by decide),
   C9_verifying_mode.2.2.2.2.2 verifyingScanner true 7000 rfl (by decide),
   C9_verifying_mode.2.2.1 [(true, 1), (false, 2), (true, 3)] {} rfl rfl (by decide)⟩

end ConsultEase
